import Mathlib

/-!
Shallow embedding of the edmcoverlay overlay renderer.

The embedding covers the graphics data model and color parsing
(src/graphics_data.rs), the listener and renderer event loops
(src/main.rs), and the Xlib thread-safety guard state machine
(src/x11.rs), together with theorems settling the specification
claims about them.
-/

namespace EdmcOverlay

/-- Color with three 8-bit channels (graphics_data.rs, struct Color).
Channels are Nat; every color produced by parsing has channels below 256. -/
structure Color where
  red : Nat
  green : Nat
  blue : Nat
deriving DecidableEq

/-- Text size (graphics_data.rs, enum Size); serde names "normal"/"large". -/
inductive Size where
  | normal
  | large
deriving DecidableEq

/-- Marker kind of a vector element (graphics_data.rs, enum Marker). -/
inductive Marker where
  | circle
  | cross
deriving DecidableEq

/-- Element of a vector drawable (graphics_data.rs, struct VectorElement). -/
structure VectorElement where
  x : Nat
  y : Nat
  marker : Marker
  color : Color
  text : String
deriving DecidableEq

/-- Drawable payload (graphics_data.rs, enum Drawable): a rectangle, a
polyline vector, or a text label. Field order follows the source. -/
inductive Drawable where
  | rectangle (x y w h : Nat) (fill : Color) (color : Color)
  | vector (color : Color) (vector : List VectorElement)
  | text (text : String) (size : Size) (color : Color) (x y : Nat)
deriving DecidableEq

/-- A graphic (graphics_data.rs, struct Graphic): a string id, a signed
ttl, and an optional drawable (the flattened wire fields). -/
structure Graphic where
  id : String
  ttl : Int
  drawable : Option Drawable
deriving DecidableEq

/-- Whether a character is a hexadecimal digit, in either case: the
character class of HEX_REGEX in graphics_data.rs. -/
def isHexDigitChar (c : Char) : Bool :=
  (48 ≤ c.toNat && c.toNat ≤ 57) || (97 ≤ c.toNat && c.toNat ≤ 102) ||
    (65 ≤ c.toNat && c.toNat ≤ 70)

/-- Numeric value of one hexadecimal digit, as u8::from_str_radix
computes it on a single-digit capture group. -/
def hexDigitVal (c : Char) : Nat :=
  if 48 ≤ c.toNat ∧ c.toNat ≤ 57 then c.toNat - 48
  else if 97 ≤ c.toNat ∧ c.toNat ≤ 102 then c.toNat - 87
  else if 65 ≤ c.toNat ∧ c.toNat ≤ 70 then c.toNat - 55
  else 0

/-- Color parsing (graphics_data.rs, impl TryFrom for Color): the five
named colors, otherwise the anchored regex requiring a hash sign followed
by exactly six hexadecimal digits, two per channel. -/
def Color.tryFrom (s : String) : Option Color :=
  if s = "red" then some ⟨255, 0, 0⟩
  else if s = "green" then some ⟨0, 255, 0⟩
  else if s = "yellow" then some ⟨255, 255, 0⟩
  else if s = "blue" then some ⟨0, 0, 255⟩
  else if s = "black" then some ⟨0, 0, 0⟩
  else
    match s.data with
    | [h, a, b, c, d, e, f] =>
      if h = '#' ∧ isHexDigitChar a ∧ isHexDigitChar b ∧ isHexDigitChar c ∧
          isHexDigitChar d ∧ isHexDigitChar e ∧ isHexDigitChar f then
        some ⟨hexDigitVal a * 16 + hexDigitVal b,
              hexDigitVal c * 16 + hexDigitVal d,
              hexDigitVal e * 16 + hexDigitVal f⟩
      else none
    | _ => none

/-- Lowercase hexadecimal digit of a value below 16, as the {:02x} format
specifier renders one digit. -/
def toHexChar (n : Nat) : Char :=
  if n < 10 then Char.ofNat (48 + n) else Char.ofNat (87 + n)

/-- Color serialization (graphics_data.rs, impl From Color for String):
a hash sign followed by three two-digit lowercase hexadecimal channels. -/
def Color.intoString (c : Color) : String :=
  ⟨['#', toHexChar (c.red / 16), toHexChar (c.red % 16),
        toHexChar (c.green / 16), toHexChar (c.green % 16),
        toHexChar (c.blue / 16), toHexChar (c.blue % 16)]⟩

/-- Specification-side predicate (spec section 3, Color): a string is one
of the five color names. -/
def isColorName (s : String) : Prop :=
  s = "red" ∨ s = "green" ∨ s = "yellow" ∨ s = "blue" ∨ s = "black"

/-- Specification-side predicate (spec section 3, Color): a valid color
string is a named constant or a hash sign followed by six
case-insensitive hexadecimal digits. -/
def specValidColor (s : String) : Prop :=
  isColorName s ∨
    (s.data.length = 7 ∧ s.data.head? = some '#' ∧
      ∀ c ∈ s.data.drop 1, isHexDigitChar c = true)

instance (s : String) : Decidable (isColorName s) := by
  unfold isColorName; infer_instance

instance (s : String) : Decidable (specValidColor s) := by
  unfold specValidColor; infer_instance

/-- Specification-side predicate (spec section 8): a seven-character
string consisting of a hash sign followed by six lowercase hexadecimal
digits. -/
def isLowerHexColorString (s : String) : Prop :=
  s.data.length = 7 ∧ s.data.head? = some '#' ∧
    ∀ c ∈ s.data.drop 1,
      ((48 ≤ c.toNat ∧ c.toNat ≤ 57) ∨ (97 ≤ c.toNat ∧ c.toNat ≤ 102))

instance (s : String) : Decidable (isLowerHexColorString s) := by
  unfold isLowerHexColorString; infer_instance

/-! ### Native surface guard (src/x11.rs) -/

/-- Guard state (x11.rs, enum XlibHandleState), the value held by the
process-wide atomic XLIB_THREAD_STATE. -/
inductive XlibHandleState where
  | unchosen
  | singleThreaded
  | exSingleThreaded
  | multiThreadedPending
  | multiThreaded
deriving DecidableEq

/-- Outcome of one acquisition attempt on the guard: a handle was issued
(the function returns Some), no handle was issued (the function returns
None), the compare-and-swap loop spins (the continue branches while
another thread initializes threading), or the function panics. -/
inductive AcquireResult where
  | acquired
  | unavailable
  | spin
  | panicked
deriving DecidableEq

/-- XlibThreadedHandle::new (x11.rs lines 482 to 522), as a function of
the guard state it observes, in interference-free (sequential) semantics:
from Unchosen the compare-and-swap to MultiThreadedPending succeeds,
XInitThreads runs, and MultiThreaded is stored; from SingleThreaded or
ExSingleThreaded the function returns None; from MultiThreadedPending the
loop continues (spin); from MultiThreaded a handle is returned. No branch
of this function panics. -/
def threadedNew : XlibHandleState → AcquireResult × XlibHandleState
  | .unchosen => (.acquired, .multiThreaded)
  | .singleThreaded => (.unavailable, .singleThreaded)
  | .exSingleThreaded => (.unavailable, .exSingleThreaded)
  | .multiThreadedPending => (.spin, .multiThreadedPending)
  | .multiThreaded => (.acquired, .multiThreaded)

/-- XlibHandle::new (x11.rs lines 406 to 474), as a function of the guard
state it observes, in interference-free (sequential) semantics: from
Unchosen the compare-and-swap to SingleThreaded succeeds; one exclusive
handle outstanding means None; from ExSingleThreaded the inner
compare-and-swap succeeds (no other thread intervenes between the two
observations); from MultiThreadedPending the loop continues; from
MultiThreaded a handle is returned without a state change. -/
def exclusiveNew : XlibHandleState → AcquireResult × XlibHandleState
  | .unchosen => (.acquired, .singleThreaded)
  | .singleThreaded => (.unavailable, .singleThreaded)
  | .exSingleThreaded => (.acquired, .singleThreaded)
  | .multiThreadedPending => (.spin, .multiThreadedPending)
  | .multiThreaded => (.acquired, .multiThreaded)

/-- Releasing (dropping) an XlibHandle. The source declares
struct XlibHandle(PhantomData) with no Drop impl (x11.rs line 404), so
dropping a handle runs no code and leaves XLIB_THREAD_STATE untouched:
the faithful translation is the identity on the guard state. -/
def xlibHandleDrop (s : XlibHandleState) : XlibHandleState := s

/-! ### Overlay engine state (src/main.rs, renderer) -/

/-- Key of the live set: (client_id, graphic id), as in the
HashMap (usize, String) of the renderer. -/
abbrev ClientKey := Nat × String

/-- The live set: the renderer's HashMap from (client_id, id) to an
optional Graphic slot, modelled as an association list (slots are None
only transiently, mid-sweep). -/
abbrev LiveSet := List (ClientKey × Option Graphic)

/-- Render tick rate (main.rs, const FPS: u32 = 1). -/
def FPS : Int := 1

/-- First-match lookup of a key in the live set, returning the stored
slot when the key is present. -/
def getG : LiveSet → ClientKey → Option (Option Graphic)
  | [], _ => none
  | (k', v) :: rest, k => if k' = k then some v else getG rest k

/-- HashMap::insert: store the value at the key and return the previous
value at that key, if any. -/
def insertG : LiveSet → ClientKey → Option Graphic → LiveSet × Option (Option Graphic)
  | [], k, v => ([(k, v)], none)
  | (k', v') :: rest, k, v =>
    if k' = k then ((k, v) :: rest, some v')
    else
      let r := insertG rest k v
      ((k', v') :: r.1, r.2)

/-- A command forwarded from the listener to the renderer
(main.rs, struct Command). -/
structure Command where
  client_id : Nat
  graphic : Graphic
deriving DecidableEq

/-- The renderer's command branch (main.rs lines 483 to 490): scale the
ttl by FPS, insert the graphic at (client_id, id) replacing any prior
slot, and put the prior value in this tick's expired list when it was a
non-tombstoned slot. Returns the live set and expired list passed to the
immediately following do_redraw call. -/
def commandStep (c : Command) (s : LiveSet) : LiveSet × List Graphic :=
  let g : Graphic := { c.graphic with ttl := c.graphic.ttl * FPS }
  let r := insertG s (c.client_id, c.graphic.id) (some g)
  (r.1, match r.2 with
        | some (some old) => [old]
        | _ => [])

/-- The renderer's tick branch (main.rs lines 492 to 507): for each
non-tombstoned entry, ttl zero moves the graphic to the expired list and
tombstones the slot, positive ttl is decremented, negative ttl is left
unchanged; the final retain drops every tombstoned slot. Tombstoned
slots encountered during the sweep are skipped and dropped. Returns the
live set and expired list passed to the following do_redraw call. -/
def tickStep : LiveSet → LiveSet × List Graphic
  | [] => ([], [])
  | (k, some g) :: rest =>
    let r := tickStep rest
    if g.ttl = 0 then (r.1, g :: r.2)
    else if 0 < g.ttl then ((k, some { g with ttl := g.ttl - 1 }) :: r.1, r.2)
    else ((k, some g) :: r.1, r.2)
  | (_, none) :: rest => tickStep rest

/-- The live set after n consecutive ticks with no intervening command. -/
def tickIter : Nat → LiveSet → LiveSet
  | 0, s => s
  | n + 1, s => tickIter n (tickStep s).1

/-- The precondition under which do_redraw does not panic: do_redraw
unwraps every live slot and its drawable (main.rs line 191) and the
drawable of every expired graphic (main.rs line 105), so it panics as
soon as a slot is tombstoned or a graphic in either argument has no
drawable. -/
def redrawSafe (s : LiveSet) (expired : List Graphic) : Bool :=
  s.all (fun e => match e.2 with
                  | some g => g.drawable.isSome
                  | none => false) &&
    expired.all (fun g => g.drawable.isSome)

/-- The version banner pre-seeded into the live set before the first
redraw (main.rs lines 453 to 466). -/
def versionBanner : Graphic :=
  { id := "test-rect", ttl := -1,
    drawable := some (.text "edmcoverlay CE" .normal ⟨255, 255, 255⟩ 1175 975) }

/-- The live set at startup (main.rs lines 452 to 466): one entry at key
(0, "version-number") holding the version banner. -/
def initialGraphics : LiveSet :=
  [((0, "version-number"), some versionBanner)]

/-- Arguments of the startup do_redraw call (main.rs line 480): the
pre-seeded live set and an empty expired slice, before any command is
received or any tick fires. -/
def startupRedrawArgs : LiveSet × List Graphic :=
  (initialGraphics, [])

/-! ### Wire protocol deserialization (serde derives on graphics_data.rs) -/

/-- JSON values; the protocol's numeric fields are integers, so integer
numerics suffice for the embedding. -/
inductive Json where
  | null
  | bool (b : Bool)
  | num (n : Int)
  | str (s : String)
  | arr (elems : List Json)
  | obj (fields : List (String × Json))

/-- First binding of a field name in an object's field list. -/
def lookupField : List (String × Json) → String → Option Json
  | [], _ => none
  | (k', v) :: rest, k => if k' = k then some v else lookupField rest k

/-- Field access: an object's field by name, none on any other value. -/
def Json.getField : Json → String → Option Json
  | .obj fields, k => lookupField fields k
  | _, _ => none

/-- Deserializing a string field. -/
def Json.asString : Json → Option String
  | .str s => some s
  | _ => none

/-- Deserializing a usize field: a non-negative integer. -/
def Json.asNat : Json → Option Nat
  | .num n => if 0 ≤ n then some n.toNat else none
  | _ => none

/-- Deserializing an isize field. -/
def Json.asInt : Json → Option Int
  | .num n => some n
  | _ => none

/-- serde_aux deserialize_string_from_number on the id field: a string is
taken as is, a number is coerced to its decimal string form. -/
def stringFromNumber : Json → Option String
  | .str s => some s
  | .num n => some (toString n)
  | _ => none

/-- A color-typed field: a string deserialized through Color's TryFrom. -/
def parseColorField (j : Json) (k : String) : Option Color :=
  (j.getField k).bind fun v => v.asString.bind fun s => Color.tryFrom s

/-- A usize-typed field. -/
def parseNatField (j : Json) (k : String) : Option Nat :=
  (j.getField k).bind Json.asNat

/-- The Rectangle variant of the untagged Drawable: requires the shape
field to be the string "rect" (enum ShapeRect), the four usize
coordinates, and the two colors. -/
def tryRect (j : Json) : Option Drawable :=
  match j.getField "shape" with
  | some (.str "rect") =>
    match parseNatField j "x", parseNatField j "y", parseNatField j "w",
        parseNatField j "h", parseColorField j "fill", parseColorField j "color" with
    | some x, some y, some w, some h, some fill, some color =>
      some (.rectangle x y w h fill color)
    | _, _, _, _, _, _ => none
  | _ => none

/-- Marker deserialization (serde renames "circle"/"cross"). -/
def parseMarker : Json → Option Marker
  | .str "circle" => some .circle
  | .str "cross" => some .cross
  | _ => none

/-- VectorElement deserialization: all five fields are required. -/
def parseVectorElement (j : Json) : Option VectorElement :=
  match parseNatField j "x", parseNatField j "y",
      (j.getField "marker").bind parseMarker, parseColorField j "color",
      (j.getField "text").bind Json.asString with
  | some x, some y, some m, some c, some t => some ⟨x, y, m, c, t⟩
  | _, _, _, _, _ => none

/-- The Vector variant of the untagged Drawable: requires the shape field
to be the string "vect" (enum ShapeVect), a color, and an array of
vector elements, every one of which must deserialize. -/
def tryVect (j : Json) : Option Drawable :=
  match j.getField "shape" with
  | some (.str "vect") =>
    match parseColorField j "color", j.getField "vector" with
    | some c, some (.arr elems) =>
      match elems.mapM parseVectorElement with
      | some v => some (.vector c v)
      | none => none
    | _, _ => none
  | _ => none

/-- The size field of the Text variant: absent defaults to Normal
(serde default), otherwise it must be the string "normal" or "large". -/
def parseSizeField (j : Json) : Option Size :=
  match j.getField "size" with
  | none => some .normal
  | some (.str "normal") => some .normal
  | some (.str "large") => some .large
  | some _ => none

/-- The Text variant of the untagged Drawable: requires a text string,
an optional size, a color, and the two usize coordinates. -/
def tryText (j : Json) : Option Drawable :=
  match (j.getField "text").bind Json.asString, parseSizeField j,
      parseColorField j "color", parseNatField j "x", parseNatField j "y" with
  | some t, some sz, some c, some x, some y => some (.text t sz c x y)
  | _, _, _, _, _ => none

/-- Untagged Drawable deserialization: the variants are tried in
declaration order (Rectangle, Vector, Text) and the first success wins;
none matching is a failure of the Drawable deserializer. -/
def parseDrawable (j : Json) : Option Drawable :=
  (tryRect j) <|> (tryVect j) <|> tryText j

/-- Graphic deserialization (the serde derive on struct Graphic): the id
via deserialize_string_from_number and an integer ttl are required; the
drawable is a flattened Option of the untagged Drawable, and serde's
flattened-Option handling turns any failure of the inner Drawable
deserializer into None rather than into an error for the whole line. -/
def parseGraphic (j : Json) : Option Graphic :=
  match (j.getField "id").bind stringFromNumber, (j.getField "ttl").bind Json.asInt with
  | some id, some ttl => some ⟨id, ttl, parseDrawable j⟩
  | _, _ => none

/-! ### Listener line handling (src/main.rs, listener) -/

/-- Observable outcome of one iteration of the listener's line loop: the
line failed to parse (logged via eprintln and discarded), or it parsed,
possibly warning (when the drawable is absent) and possibly submitting a
command to the channel. -/
inductive LineOutcome where
  | parseError
  | handled (warned : Bool) (sent : Option Command)
deriving DecidableEq

/-- The command this outcome submitted to the channel, if any. -/
def LineOutcome.sent : LineOutcome → Option Command
  | .parseError => none
  | .handled _ s => s

/-- Whether this outcome emitted the invalid-drawable warning. -/
def LineOutcome.warned : LineOutcome → Bool
  | .parseError => false
  | .handled w _ => w

/-- One iteration of the listener's per-connection line loop (main.rs
lines 531 to 549): parse the line; on failure report and continue; on
success warn exactly when the drawable is absent, and submit
Command with client_id and graphic exactly when the graphic has a
drawable or its ttl is zero. -/
def handleLine (client_id : Nat) (j : Json) : LineOutcome :=
  match parseGraphic j with
  | none => .parseError
  | some g =>
    .handled g.drawable.isNone
      (if g.drawable.isSome || g.ttl == 0 then some ⟨client_id, g⟩ else none)

/-- The listener's line loop over a whole connection: each received line
is handled independently and the loop continues past parse failures. -/
def processLines (client_id : Nat) (lines : List Json) : List LineOutcome :=
  lines.map (handleLine client_id)

/-! ### Concrete fixtures for scenario theorems -/

/-- A live rectangle graphic with the never-expires ttl. -/
def sampleRect : Graphic :=
  ⟨"a", -1, some (.rectangle 1 2 3 4 ⟨255, 0, 0⟩ ⟨0, 0, 0⟩)⟩

/-- An explicit deletion command for id "a": ttl zero, no drawable. -/
def deletionCmd : Command := ⟨7, ⟨"a", 0, none⟩⟩

/-- A live set in which client 7 has one graphic under id "a". -/
def c1State : LiveSet := [((7, "a"), some sampleRect)]

/-- A graphic stored with ttl 1 (already tick-scaled). -/
def c6Graphic : Graphic :=
  ⟨"c6", 1, some (.rectangle 0 0 1 1 ⟨255, 0, 0⟩ ⟨0, 0, 0⟩)⟩

/-- A live set holding only the ttl 1 graphic. -/
def c6State : LiveSet := [((1, "c6"), some c6Graphic)]

/-- A malformed protocol line: an object with no id field. -/
def badLine : Json := .obj [("ttl", .num 1)]

/-- A valid deletion line: id and ttl zero, no drawable fields. -/
def deletionLine : Json := .obj [("id", .str "d"), ("ttl", .num 0)]

/-- The graphic the deletion line parses to. -/
def deletionGraphic : Graphic := ⟨"d", 0, none⟩

/-- A rectangle line whose fill color string is not a valid color. -/
def badFillLine : Json :=
  .obj [("id", .str "x"), ("ttl", .num 5), ("shape", .str "rect"),
        ("x", .num 0), ("y", .num 0), ("w", .num 1), ("h", .num 1),
        ("fill", .str "florp"), ("color", .str "red")]

/-- A rectangle-shaped protocol line with a given id, ttl and fill color
string. -/
def rectLineWithFill (id : String) (ttl : Int) (fill : String) : Json :=
  .obj [("id", .str id), ("ttl", .num ttl), ("shape", .str "rect"),
        ("x", .num 0), ("y", .num 0), ("w", .num 1), ("h", .num 1),
        ("fill", .str fill), ("color", .str "red")]

end EdmcOverlay

namespace EdmcOverlay

/-! ### Helper lemmas about the tick sweep -/

lemma getG_eq_none_iff (s : LiveSet) (k : ClientKey) :
    getG s k = none ↔ k ∉ s.map Prod.fst := by
  induction s with
  | nil => simp [getG]
  | cons e rest ih =>
    obtain ⟨k', v⟩ := e
    by_cases hk : k' = k
    · subst hk
      simp [getG]
    · simp [getG, hk, ih, Ne.symm hk]

lemma tickStep_keys_sublist (s : LiveSet) :
    ((tickStep s).1.map Prod.fst).Sublist (s.map Prod.fst) := by
  induction s with
  | nil => simp [tickStep]
  | cons e rest ih =>
    obtain ⟨k, v⟩ := e
    cases v with
    | none =>
      simp only [tickStep, List.map_cons]
      exact ih.cons _
    | some g =>
      simp only [tickStep, List.map_cons]
      split_ifs with h0 hp
      · exact ih.cons _
      · simpa using List.Sublist.cons₂ k ih
      · simpa using List.Sublist.cons₂ k ih

lemma tickStep_nodup (s : LiveSet) (hnd : (s.map Prod.fst).Nodup) :
    ((tickStep s).1.map Prod.fst).Nodup :=
  List.Nodup.sublist (tickStep_keys_sublist s) hnd

lemma getG_none_tickStep (s : LiveSet) (k : ClientKey) (h : getG s k = none) :
    getG (tickStep s).1 k = none := by
  rw [getG_eq_none_iff] at h ⊢
  intro hmem
  exact h ((tickStep_keys_sublist s).subset hmem)

lemma tickStep_pos (s : LiveSet) (k : ClientKey) (g : Graphic)
    (h : getG s k = some (some g)) (hpos : 0 < g.ttl) :
    getG (tickStep s).1 k = some (some { g with ttl := g.ttl - 1 }) := by
  induction s with
  | nil => simp [getG] at h
  | cons e rest ih =>
    obtain ⟨k', v⟩ := e
    by_cases hk : k' = k
    · subst hk
      have hv : v = some g := by simpa [getG] using h
      subst hv
      simp only [tickStep]
      rw [if_neg (by omega : ¬g.ttl = 0), if_pos hpos]
      simp [getG]
    · have h' : getG rest k = some (some g) := by simpa [getG, hk] using h
      cases v with
      | none =>
        simp only [tickStep]
        exact ih h'
      | some g' =>
        simp only [tickStep]
        split_ifs with h0 hp
        · exact ih h'
        · simpa [getG, hk] using ih h'
        · simpa [getG, hk] using ih h'

lemma tickStep_neg (s : LiveSet) (k : ClientKey) (g : Graphic)
    (h : getG s k = some (some g)) (hneg : g.ttl < 0) :
    getG (tickStep s).1 k = some (some g) := by
  induction s with
  | nil => simp [getG] at h
  | cons e rest ih =>
    obtain ⟨k', v⟩ := e
    by_cases hk : k' = k
    · subst hk
      have hv : v = some g := by simpa [getG] using h
      subst hv
      simp only [tickStep]
      rw [if_neg (by omega : ¬g.ttl = 0), if_neg (by omega : ¬0 < g.ttl)]
      simp [getG]
    · have h' : getG rest k = some (some g) := by simpa [getG, hk] using h
      cases v with
      | none =>
        simp only [tickStep]
        exact ih h'
      | some g' =>
        simp only [tickStep]
        split_ifs with h0 hp
        · exact ih h'
        · simpa [getG, hk] using ih h'
        · simpa [getG, hk] using ih h'

lemma tickStep_zero (s : LiveSet) (k : ClientKey) (g : Graphic)
    (hnd : (s.map Prod.fst).Nodup) (h : getG s k = some (some g)) (h0 : g.ttl = 0) :
    getG (tickStep s).1 k = none ∧ g ∈ (tickStep s).2 := by
  induction s with
  | nil => simp [getG] at h
  | cons e rest ih =>
    obtain ⟨k', v⟩ := e
    simp only [List.map_cons, List.nodup_cons] at hnd
    by_cases hk : k' = k
    · subst hk
      have hv : v = some g := by simpa [getG] using h
      subst hv
      simp only [tickStep]
      rw [if_pos h0]
      refine ⟨?_, by simp⟩
      exact getG_none_tickStep rest _ ((getG_eq_none_iff rest _).mpr hnd.1)
    · have h' : getG rest k = some (some g) := by simpa [getG, hk] using h
      have ihr := ih hnd.2 h'
      cases v with
      | none =>
        simp only [tickStep]
        exact ihr
      | some g' =>
        simp only [tickStep]
        split_ifs with hz hp
        · exact ⟨ihr.1, List.mem_cons_of_mem _ ihr.2⟩
        · exact ⟨by simpa [getG, hk] using ihr.1, ihr.2⟩
        · exact ⟨by simpa [getG, hk] using ihr.1, ihr.2⟩

lemma tickIter_succ_right (n : Nat) (s : LiveSet) :
    tickIter (n + 1) s = (tickStep (tickIter n s)).1 := by
  induction n generalizing s with
  | zero => rfl
  | succ n ih => simpa [tickIter] using ih (tickStep s).1

/-! ### Helper lemmas about color parsing and serialization -/

lemma hexDigitVal_lt_16 (c : Char) : hexDigitVal c < 16 := by
  unfold hexDigitVal
  split_ifs with h1 h2 h3 <;> omega

lemma toHexChar_isHexDigit_fin : ∀ n : Fin 16, isHexDigitChar (toHexChar n.val) = true := by
  decide

lemma toHexChar_val_fin : ∀ n : Fin 16, hexDigitVal (toHexChar n.val) = n.val := by
  decide

lemma toHexChar_lower_fin : ∀ n : Fin 16,
    (48 ≤ (toHexChar n.val).toNat ∧ (toHexChar n.val).toNat ≤ 57) ∨
      (97 ≤ (toHexChar n.val).toNat ∧ (toHexChar n.val).toNat ≤ 102) := by
  decide

lemma toHexChar_isHexDigit (n : Nat) (h : n < 16) : isHexDigitChar (toHexChar n) = true :=
  toHexChar_isHexDigit_fin ⟨n, h⟩

lemma toHexChar_val (n : Nat) (h : n < 16) : hexDigitVal (toHexChar n) = n :=
  toHexChar_val_fin ⟨n, h⟩

lemma toHexChar_lower (n : Nat) (h : n < 16) :
    (48 ≤ (toHexChar n).toNat ∧ (toHexChar n).toNat ≤ 57) ∨
      (97 ≤ (toHexChar n).toNat ∧ (toHexChar n).toNat ≤ 102) :=
  toHexChar_lower_fin ⟨n, h⟩

lemma intoString_ne (c : Color) (t : String) (ht : t.length ≠ 7) :
    Color.intoString c ≠ t := by
  intro h
  apply ht
  rw [← h]
  rfl

lemma isSome_ite_some_none {α : Type} {P : Prop} [Decidable P] {a : α} :
    ((if P then some a else none).isSome = true) ↔ P := by
  split_ifs with h <;> simp [h]

lemma tryFrom_isSome_iff (s : String) :
    (Color.tryFrom s).isSome = true ↔ specValidColor s := by
  by_cases h1 : s = "red"
  · subst h1; decide
  by_cases h2 : s = "green"
  · subst h2; decide
  by_cases h3 : s = "yellow"
  · subst h3; decide
  by_cases h4 : s = "blue"
  · subst h4; decide
  by_cases h5 : s = "black"
  · subst h5; decide
  obtain ⟨l⟩ := s
  unfold Color.tryFrom specValidColor isColorName
  rw [if_neg h1, if_neg h2, if_neg h3, if_neg h4, if_neg h5]
  rcases l with _ | ⟨x1, _ | ⟨x2, _ | ⟨x3, _ | ⟨x4, _ | ⟨x5, _ | ⟨x6, _ | ⟨x7, _ | ⟨x8, t⟩⟩⟩⟩⟩⟩⟩⟩ <;>
      simp [h1, h2, h3, h4, h5, isSome_ite_some_none]

lemma tryFrom_channels (s : String) (c : Color) (h : Color.tryFrom s = some c) :
    c.red < 256 ∧ c.green < 256 ∧ c.blue < 256 := by
  obtain ⟨l⟩ := s
  unfold Color.tryFrom at h
  split_ifs at h
  all_goals try (injection h with h'; subst h'; decide)
  rcases l with _ | ⟨x1, _ | ⟨x2, _ | ⟨x3, _ | ⟨x4, _ | ⟨x5, _ | ⟨x6, _ | ⟨x7, _ | ⟨x8, t⟩⟩⟩⟩⟩⟩⟩⟩ <;>
    simp at h
  obtain ⟨-, h'⟩ := h
  subst h'
  have b1 := hexDigitVal_lt_16 x2
  have b2 := hexDigitVal_lt_16 x3
  have b3 := hexDigitVal_lt_16 x4
  have b4 := hexDigitVal_lt_16 x5
  have b5 := hexDigitVal_lt_16 x6
  have b6 := hexDigitVal_lt_16 x7
  refine ⟨?_, ?_, ?_⟩ <;> dsimp only <;> omega

lemma tryFrom_intoString (r g b : Nat) (hr : r < 256) (hg : g < 256) (hb : b < 256) :
    Color.tryFrom (Color.intoString ⟨r, g, b⟩) = some ⟨r, g, b⟩ := by
  have hne1 : Color.intoString ⟨r, g, b⟩ ≠ "red" := intoString_ne _ _ (by decide)
  have hne2 : Color.intoString ⟨r, g, b⟩ ≠ "green" := intoString_ne _ _ (by decide)
  have hne3 : Color.intoString ⟨r, g, b⟩ ≠ "yellow" := intoString_ne _ _ (by decide)
  have hne4 : Color.intoString ⟨r, g, b⟩ ≠ "blue" := intoString_ne _ _ (by decide)
  have hne5 : Color.intoString ⟨r, g, b⟩ ≠ "black" := intoString_ne _ _ (by decide)
  have hd1 : r / 16 < 16 := by omega
  have hd2 : g / 16 < 16 := by omega
  have hd3 : b / 16 < 16 := by omega
  have hm1 : r % 16 < 16 := by omega
  have hm2 : g % 16 < 16 := by omega
  have hm3 : b % 16 < 16 := by omega
  unfold Color.tryFrom
  rw [if_neg hne1, if_neg hne2, if_neg hne3, if_neg hne4, if_neg hne5]
  show (if '#' = '#' ∧ isHexDigitChar (toHexChar (r / 16)) = true ∧
        isHexDigitChar (toHexChar (r % 16)) = true ∧
        isHexDigitChar (toHexChar (g / 16)) = true ∧
        isHexDigitChar (toHexChar (g % 16)) = true ∧
        isHexDigitChar (toHexChar (b / 16)) = true ∧
        isHexDigitChar (toHexChar (b % 16)) = true then
      some (Color.mk
        (hexDigitVal (toHexChar (r / 16)) * 16 + hexDigitVal (toHexChar (r % 16)))
        (hexDigitVal (toHexChar (g / 16)) * 16 + hexDigitVal (toHexChar (g % 16)))
        (hexDigitVal (toHexChar (b / 16)) * 16 + hexDigitVal (toHexChar (b % 16))))
    else none) = some ⟨r, g, b⟩
  rw [if_pos ⟨rfl, toHexChar_isHexDigit _ hd1, toHexChar_isHexDigit _ hm1,
    toHexChar_isHexDigit _ hd2, toHexChar_isHexDigit _ hm2,
    toHexChar_isHexDigit _ hd3, toHexChar_isHexDigit _ hm3⟩]
  rw [toHexChar_val _ hd1, toHexChar_val _ hm1, toHexChar_val _ hd2,
    toHexChar_val _ hm2, toHexChar_val _ hd3, toHexChar_val _ hm3]
  simp only [Option.some.injEq, Color.mk.injEq]
  exact ⟨by omega, by omega, by omega⟩

lemma intoString_lowerHex (r g b : Nat) (hr : r < 256) (hg : g < 256) (hb : b < 256) :
    isLowerHexColorString (Color.intoString ⟨r, g, b⟩) := by
  refine ⟨rfl, rfl, ?_⟩
  intro ch hch
  have hd1 : r / 16 < 16 := by omega
  have hd2 : g / 16 < 16 := by omega
  have hd3 : b / 16 < 16 := by omega
  have hm1 : r % 16 < 16 := by omega
  have hm2 : g % 16 < 16 := by omega
  have hm3 : b % 16 < 16 := by omega
  simp only [Color.intoString, List.drop_succ_cons, List.drop_zero, List.mem_cons,
    List.not_mem_nil, or_false] at hch
  rcases hch with rfl | rfl | rfl | rfl | rfl | rfl
  · exact toHexChar_lower _ hd1
  · exact toHexChar_lower _ hm1
  · exact toHexChar_lower _ hd2
  · exact toHexChar_lower _ hm2
  · exact toHexChar_lower _ hd3
  · exact toHexChar_lower _ hm3

/-! ### Claim theorems -/

/-- C2, counterexample: the startup redraw does not receive an empty Live
Set. The live set passed to the first do_redraw call already contains the
pre-seeded version banner at key (0, "version-number"); only the expired
list is empty. -/
theorem c2_counterexample :
    startupRedrawArgs.1 ≠ ([] : LiveSet) ∧
    getG startupRedrawArgs.1 (0, "version-number") = some (some versionBanner) ∧
    startupRedrawArgs.2 = ([] : List Graphic) := by
  decide

/-- C2, amended: the engine's first invocation of the renderer surface,
before any command or tick, passes an empty expired list together with a
live set holding exactly one pre-seeded entry, the never-expiring version
banner at key (0, "version-number"). -/
theorem c2_startup_redraw :
    startupRedrawArgs = ([((0, "version-number"), some versionBanner)], []) ∧
    versionBanner.ttl = -1 ∧ versionBanner.drawable.isSome = true := by
  decide

/-- C3, counterexample: acquiring a shared-safe handle while the guard is
SingleThreaded or ExSingleThreaded is not a panic. XlibThreadedHandle::new
returns None (the recoverable unavailable outcome) and leaves the state
unchanged. -/
theorem c3_counterexample :
    threadedNew .singleThreaded = (.unavailable, .singleThreaded) ∧
    threadedNew .exSingleThreaded = (.unavailable, .exSingleThreaded) ∧
    AcquireResult.unavailable ≠ AcquireResult.panicked := by
  decide

/-- C3, amended: from SingleThreaded or ExSingleThreaded, acquiring a
shared-safe handle returns no handle and leaves the guard state
unchanged, a recoverable failure; no branch of XlibThreadedHandle::new
panics from any state. -/
theorem c3_threaded_acquire_unavailable (s : XlibHandleState)
    (h : s = .singleThreaded ∨ s = .exSingleThreaded) :
    threadedNew s = (.unavailable, s) ∧
      ((threadedNew .unchosen).1 ≠ .panicked ∧
       (threadedNew .singleThreaded).1 ≠ .panicked ∧
       (threadedNew .exSingleThreaded).1 ≠ .panicked ∧
       (threadedNew .multiThreadedPending).1 ≠ .panicked ∧
       (threadedNew .multiThreaded).1 ≠ .panicked) := by
  rcases h with h | h <;> subst h <;> exact ⟨rfl, by decide⟩

/-- C3, witness: the amended statement instantiated at SingleThreaded. -/
theorem c3_witness :
    threadedNew .singleThreaded = (.unavailable, .singleThreaded) ∧
      ((threadedNew .unchosen).1 ≠ .panicked ∧
       (threadedNew .singleThreaded).1 ≠ .panicked ∧
       (threadedNew .exSingleThreaded).1 ≠ .panicked ∧
       (threadedNew .multiThreadedPending).1 ≠ .panicked ∧
       (threadedNew .multiThreaded).1 ≠ .panicked) :=
  c3_threaded_acquire_unavailable .singleThreaded (Or.inl rfl)

/-- C4: releasing an exclusive XlibHandle performs no guard transition at
all, because the source declares no Drop impl for XlibHandle. From
SingleThreaded the state stays SingleThreaded rather than moving to
ExSingleThreaded, so a later exclusive acquisition still returns no
handle; from MultiThreaded the release is (vacuously) a no-op. -/
theorem c4_drop_is_noop :
    xlibHandleDrop .singleThreaded = .singleThreaded ∧
    xlibHandleDrop .singleThreaded ≠ .exSingleThreaded ∧
    (exclusiveNew (xlibHandleDrop .singleThreaded)).1 = .unavailable ∧
    xlibHandleDrop .multiThreaded = .multiThreaded := by
  decide

/-- C1: processing an explicit deletion command (ttl zero, no drawable)
for an existing non-tombstoned key does move the old value into that
tick's expired list exactly once, but it does not remove the key from the
Live Set: the key stays bound to the drawable-less deletion marker in the
snapshot passed to the immediately following redraw, and that snapshot
violates do_redraw's unwrap precondition, so the redraw panics. -/
theorem c1_deletion_marker_persists :
    commandStep deletionCmd c1State =
      ([((7, "a"), some ⟨"a", 0, none⟩)], [sampleRect]) ∧
    getG (commandStep deletionCmd c1State).1 (7, "a") = some (some ⟨"a", 0, none⟩) ∧
    redrawSafe (commandStep deletionCmd c1State).1 (commandStep deletionCmd c1State).2
      = false := by
  decide

/-- C6, counterexample: a graphic stored with ttl 1 is not expired by the
tick that occurs exactly 1 tick after insertion: that tick produces an
empty expired list and keeps the graphic in the snapshot with ttl 0; the
graphic is expired by the following tick (ttl plus one ticks after
insertion) and only then leaves the snapshot. -/
theorem c6_counterexample :
    (tickStep c6State).2 = ([] : List Graphic) ∧
    getG (tickStep c6State).1 (1, "c6") = some (some ⟨"c6", 0, c6Graphic.drawable⟩) ∧
    (tickStep (tickStep c6State).1).2 = [⟨"c6", 0, c6Graphic.drawable⟩] ∧
    getG (tickIter 2 c6State) (1, "c6") = none := by
  decide

/-- C7: on a tick, the sweep applies exactly this rule to every
non-tombstoned entry of the Live Set: an entry with ttl zero is moved
into this tick's expired list and its key is removed; an entry with
positive ttl has its ttl decremented by one and stays; an entry with
negative ttl is left completely unchanged, and in particular a ttl -1
graphic is still present, unchanged, after any number of ticks. -/
theorem c7_sweep_rule (s : LiveSet) (k : ClientKey) (g : Graphic)
    (hnd : (s.map Prod.fst).Nodup) (h : getG s k = some (some g)) :
    (g.ttl = 0 → getG (tickStep s).1 k = none ∧ g ∈ (tickStep s).2) ∧
    (0 < g.ttl → getG (tickStep s).1 k = some (some { g with ttl := g.ttl - 1 })) ∧
    (g.ttl < 0 → getG (tickStep s).1 k = some (some g)) ∧
    (g.ttl = -1 → ∀ n, getG (tickIter n s) k = some (some g)) := by
  refine ⟨fun h0 => tickStep_zero s k g hnd h h0,
          fun hp => tickStep_pos s k g h hp,
          fun hneg => tickStep_neg s k g h hneg,
          fun hm1 n => ?_⟩
  have main : ∀ (m : Nat) (t : LiveSet), (t.map Prod.fst).Nodup →
      getG t k = some (some g) → getG (tickIter m t) k = some (some g) := by
    intro m
    induction m with
    | zero => intro t _ ht; exact ht
    | succ m ih =>
      intro t hndt ht
      show getG (tickIter m (tickStep t).1) k = some (some g)
      exact ih _ (tickStep_nodup t hndt) (tickStep_neg t k g ht (by omega))
  exact main n s hnd h

/-- C7, witness: the sweep rule instantiated at a never-expiring graphic
across five ticks, and at a graphic that has counted down to ttl zero. -/
theorem c7_witness :
    getG (tickIter 5 c1State) (7, "a") = some (some sampleRect) ∧
    (⟨"c6", 0, c6Graphic.drawable⟩ : Graphic) ∈ (tickStep (tickStep c6State).1).2 := by
  constructor
  · exact (c7_sweep_rule c1State (7, "a") sampleRect (by decide)
      (by decide)).2.2.2 (by decide) 5
  · exact ((c7_sweep_rule (tickStep c6State).1 (1, "c6")
      ⟨"c6", 0, c6Graphic.drawable⟩ (by decide) (by decide)).1 (by decide)).2

/-- C6, amended: a graphic stored with tick-scaled ttl T greater than 0
and never replaced is still in the snapshot after each of the first T
ticks (holding ttl T - i after i ticks, so ttl 0 after the T-th tick),
is moved into the expired list by the tick that occurs exactly T plus
one ticks after insertion, and is absent from every snapshot after that
tick. -/
theorem c6_expiry_after_ttl_plus_one (s : LiveSet) (k : ClientKey) (g : Graphic)
    (T : Nat) (hnd : (s.map Prod.fst).Nodup) (h : getG s k = some (some g))
    (hT : g.ttl = (T : Int)) (hTpos : 0 < T) :
    (∀ i, i ≤ T →
      getG (tickIter i s) k = some (some { g with ttl := ((T - i : Nat) : Int) })) ∧
    { g with ttl := 0 } ∈ (tickStep (tickIter T s)).2 ∧
    (∀ n, T < n → getG (tickIter n s) k = none) := by
  obtain ⟨gid, gttl, gdr⟩ := g
  replace hT : gttl = (T : Int) := hT
  subst hT
  have key : ∀ i, i ≤ T →
      getG (tickIter i s) k = some (some (Graphic.mk gid ((T - i : Nat) : Int) gdr)) ∧
      ((tickIter i s).map Prod.fst).Nodup := by
    intro i
    induction i with
    | zero =>
      intro _
      exact ⟨by simpa using h, hnd⟩
    | succ i ih =>
      intro hi
      obtain ⟨h1, h2⟩ := ih (Nat.le_of_succ_le hi)
      rw [tickIter_succ_right]
      have harith : ((T - i : Nat) : Int) - 1 = ((T - (i + 1) : Nat) : Int) := by omega
      have h3 := tickStep_pos (tickIter i s) k (Graphic.mk gid ((T - i : Nat) : Int) gdr)
        h1 (by show (0 : Int) < ((T - i : Nat) : Int); omega)
      refine ⟨?_, tickStep_nodup _ h2⟩
      simpa [harith] using h3
  refine ⟨fun i hi => by simpa using (key i hi).1, ?_, ?_⟩
  · obtain ⟨h1, h2⟩ := key T le_rfl
    have h3 := tickStep_zero (tickIter T s) k _ h2 h1
      (by show ((T - T : Nat) : Int) = 0; omega)
    simpa using h3.2
  · have habs0 : getG (tickIter (T + 1) s) k = none := by
      obtain ⟨h1, h2⟩ := key T le_rfl
      have h3 := tickStep_zero (tickIter T s) k _ h2 h1
        (by show ((T - T : Nat) : Int) = 0; omega)
      rw [tickIter_succ_right]
      exact h3.1
    intro n hn
    have hn' : T + 1 ≤ n := hn
    clear hn
    induction n, hn' using Nat.le_induction with
    | base => exact habs0
    | succ n hn ih => rw [tickIter_succ_right]; exact getG_none_tickStep _ _ ih

/-- C6, witness: the amended statement instantiated at the ttl 1 graphic:
present with ttl 0 after the first tick, expired by the second tick,
gone from the snapshot after it. -/
theorem c6_witness :
    getG (tickIter 1 c6State) (1, "c6") =
      some (some { c6Graphic with ttl := ((1 - 1 : Nat) : Int) }) ∧
    { c6Graphic with ttl := 0 } ∈ (tickStep (tickIter 1 c6State)).2 ∧
    getG (tickIter 2 c6State) (1, "c6") = none := by
  have h := c6_expiry_after_ttl_plus_one c6State (1, "c6") c6Graphic 1 (by decide)
    (by decide) (by decide) (by decide)
  exact ⟨h.1 1 (by decide), h.2.1, h.2.2 2 (by decide)⟩

/-- C5, counterexample: a rectangle line whose fill string is not a valid
color does not fail to parse as a whole line. The Drawable deserializer
fails, the flattened Option swallows that failure, and the Graphic parses
successfully with the drawable treated as absent. -/
theorem c5_counterexample :
    Color.tryFrom "florp" = none ∧
    parseGraphic badFillLine = some ⟨"x", 5, none⟩ := by
  decide

/-- C5, amended: a color parse failure inside a nested Drawable makes the
Drawable fail to match any variant, and the whole line then parses
successfully with the Drawable absent (the failure is swallowed by the
flattened optional Drawable), rather than failing with a parse error. -/
theorem c5_bad_color_swallowed (id : String) (ttl : Int) (fill : String)
    (hfill : Color.tryFrom fill = none) :
    parseGraphic (rectLineWithFill id ttl fill) = some ⟨id, ttl, none⟩ := by
  simp [parseGraphic, rectLineWithFill, Json.getField, lookupField,
    stringFromNumber, Json.asInt, parseDrawable, tryRect, tryVect, tryText,
    parseNatField, parseColorField, Json.asNat, Json.asString, parseSizeField,
    hfill]

/-- C5, witness: the amended statement instantiated at the concrete
invalid fill string. -/
theorem c5_witness :
    parseGraphic (rectLineWithFill "x" 5 "florp") = some ⟨"x", 5, none⟩ :=
  c5_bad_color_swallowed "x" 5 "florp" (by decide)

/-- C9: a line that fails to parse is discarded as a parse error and the
loop continues with the subsequent lines; a line that parses to a graphic
submits Command with client_id and graphic to the channel exactly when
the graphic has a drawable or its ttl is exactly zero, and is dropped
without submission otherwise. -/
theorem c9_line_handling (client_id : Nat) (j : Json) (rest : List Json) :
    (parseGraphic j = none →
      handleLine client_id j = .parseError ∧
      processLines client_id (j :: rest) =
        .parseError :: processLines client_id rest) ∧
    (∀ g, parseGraphic j = some g →
      ((handleLine client_id j).sent = some ⟨client_id, g⟩ ↔
        (g.drawable.isSome = true ∨ g.ttl = 0)) ∧
      (g.drawable = none → g.ttl ≠ 0 → (handleLine client_id j).sent = none)) := by
  constructor
  · intro h
    exact ⟨by simp [handleLine, h], by simp [processLines, handleLine, h]⟩
  · intro g hg
    constructor
    · simp only [handleLine, hg, LineOutcome.sent]
      by_cases hc : (g.drawable.isSome || g.ttl == 0) = true
      · simp only [hc, if_true]
        simp only [Bool.or_eq_true, beq_iff_eq] at hc
        simp [hc]
      · simp only [hc, if_false]
        simp only [Bool.or_eq_true, beq_iff_eq] at hc
        push_neg at hc
        simp [hc.1, hc.2]
    · intro hnone httl
      simp [handleLine, hg, LineOutcome.sent, hnone, httl]

/-- C9, witness: the statement instantiated at a malformed line followed
by a deletion line, and at the deletion line itself. -/
theorem c9_witness :
    processLines 3 (badLine :: [deletionLine]) =
      .parseError :: processLines 3 [deletionLine] ∧
    (handleLine 3 deletionLine).sent = some ⟨3, deletionGraphic⟩ := by
  refine ⟨((c9_line_handling 3 badLine [deletionLine]).1 (by decide)).2, ?_⟩
  exact ((c9_line_handling 3 deletionLine []).2 deletionGraphic (by decide)).1.mpr
    (Or.inr (by decide))

/-- C8: a color string parses exactly when it is a named constant
(red, green, yellow, blue, black) or a case-insensitive six-hex-digit
hash string, and serializing any parsed color yields a seven-character
lowercase hash-hex string that parses back to the same RGB value (so
named colors canonicalize to their hex form); every other string fails
to parse. -/
theorem c8_color_parse_serialize (s : String) :
    ((Color.tryFrom s).isSome = true ↔ specValidColor s) ∧
    (∀ c, Color.tryFrom s = some c →
      (Color.intoString c).length = 7 ∧
      isLowerHexColorString (Color.intoString c) ∧
      Color.tryFrom (Color.intoString c) = some c) := by
  refine ⟨tryFrom_isSome_iff s, fun c hc => ?_⟩
  obtain ⟨hr, hg, hb⟩ := tryFrom_channels s c hc
  obtain ⟨r, g, b⟩ := c
  exact ⟨rfl, intoString_lowerHex r g b hr hg hb, tryFrom_intoString r g b hr hg hb⟩

/-- C8, witness: the statement instantiated at a mixed-case hex color
string and at the named color red. -/
theorem c8_witness :
    ((Color.tryFrom "#AbCdEf").isSome = true ↔ specValidColor "#AbCdEf") ∧
    ((Color.intoString ⟨171, 205, 239⟩).length = 7 ∧
      isLowerHexColorString (Color.intoString ⟨171, 205, 239⟩) ∧
      Color.tryFrom (Color.intoString ⟨171, 205, 239⟩) = some ⟨171, 205, 239⟩) ∧
    Color.tryFrom (Color.intoString ⟨255, 0, 0⟩) = some ⟨255, 0, 0⟩ :=
  ⟨(c8_color_parse_serialize "#AbCdEf").1,
   (c8_color_parse_serialize "#AbCdEf").2 ⟨171, 205, 239⟩ (by decide),
   ((c8_color_parse_serialize "red").2 ⟨255, 0, 0⟩ (by decide)).2.2⟩

/-- C10: on every successfully parsed line, the invalid-drawable warning
is emitted exactly when the graphic has no drawable, with no restriction
on the ttl; in particular a valid deletion (ttl zero, no drawable) is
warned about and still forwarded to the engine. -/
theorem c10_warn_on_missing_drawable (client_id : Nat) (j : Json) (g : Graphic)
    (hg : parseGraphic j = some g) :
    ((handleLine client_id j).warned = true ↔ g.drawable = none) ∧
    (g.drawable = none → g.ttl = 0 →
      (handleLine client_id j).warned = true ∧
      (handleLine client_id j).sent = some ⟨client_id, g⟩) := by
  constructor
  · simp [handleLine, hg, LineOutcome.warned, Option.isNone_iff_eq_none]
  · intro hnone httl
    simp [handleLine, hg, LineOutcome.warned, LineOutcome.sent, hnone, httl]

/-- C10, witness: the statement instantiated at the deletion line. -/
theorem c10_witness :
    (handleLine 3 deletionLine).warned = true ∧
    (handleLine 3 deletionLine).sent = some ⟨3, deletionGraphic⟩ :=
  (c10_warn_on_missing_drawable 3 deletionLine deletionGraphic (by decide)).2
    (by decide) (by decide)

end EdmcOverlay
